import Mathlib

/-!
Verification development for `LoaderVirtualCarrierCommandGroup`
(`sentio_prober_control/Sentio/CommandGroups/LoaderVirtualCarrierCommandGroup.py`).

The module is glue over a line-oriented remote protocol: each operation
formats a command string, sends it over a Transport, reads one reply line,
validates it into a `Response`, and (for the blocking variants) waits for
completion of the asynchronous remote command.

The embedding models the Transport as a script of incoming reply lines
(`List String`, consumed in order by `read_line`), and records the observable
interaction of one operation as a trace of events (`send`, `readLine`,
`proberWait`).  The external collaborators (`Response.check_resp`, the parent
object's `wait_complete`) live outside this file's source and are modelled
from the spec as abstract components of an `Env`.  Exceptions are modelled by
`Except PErr`.
-/

/-- Errors an operation can raise.  `readFailed` stands for a failed
`read_line` on the Transport; `remoteRejected` for a reply whose status
indicates a remote failure (raised by response validation); `enumLookup` for a
failed enumeration lookup by name (Python `KeyError`); `indexError` for a
missing column in a step record; `valueError` for a failed `int`/`float`
conversion; `waitFailed` for a failure of the parent completion-wait. -/
inductive PErr where
  | readFailed
  | remoteRejected (line : String)
  | enumLookup (token : String)
  | indexError (i : Nat)
  | valueError (token : String)
  | waitFailed (cmd_id : Nat)
deriving DecidableEq, Repr

/-- Modelled from the spec: a parsed protocol reply, "a status indicator, a
correlation identifier (`cmd_id`), and a free-text payload (`message`)".  The
class itself is an external collaborator (not part of the verified source
file); only the accessors `cmd_id()` and `message()` are consumed here. -/
structure Response where
  errc : Nat
  cmd_id : Nat
  message : String
deriving DecidableEq, Repr

/-- Modelled from the spec: the external collaborators of the command group.
`check_resp` is `Response.check_resp`, which validates one reply line and
raises when the status indicates a remote failure (its line grammar is not
part of the verified source, so it is kept abstract); `wait_complete` is the
Session Controller's completion-wait on the parent object, which blocks on a
correlation id and raises on failure or timeout. -/
structure Env where
  check_resp : String → Except PErr Response
  wait_complete : Nat → Except PErr Unit

/-- One observable event of an operation: a command line sent over the
Transport, a reply line read from it, or an invocation of the parent
object's completion-wait (which carries only a correlation id, exactly as at
the call site `self.prober.wait_complete(resp.cmd_id())`). -/
inductive Event where
  | send (cmd : String)
  | readLine (line : String)
  | proberWait (cmd_id : Nat)
deriving DecidableEq, Repr

/-- The outcome of running one operation against a script of reply lines:
its result (or the exception it raised), the trace of events it produced, and
the part of the script it did not consume. -/
structure Run (α : Type) where
  result : Except PErr α
  trace : List Event
  pending : List String

/-- Helper for `pySplit`: split a character list at every occurrence of the
separator, keeping empty pieces, accumulating the current piece reversed. -/
def splitCharsAux (sep : Char) : List Char → List Char → List (List Char)
  | [], acc => [acc.reverse]
  | c :: cs, acc =>
    if c = sep then acc.reverse :: splitCharsAux sep cs []
    else splitCharsAux sep cs (c :: acc)

/-- Python `str.split(sep)` for a one-character separator: split on every
occurrence of `sep`, keeping empty pieces; the empty string yields `[""]`. -/
def pySplit (sep : Char) (s : String) : List String :=
  (splitCharsAux sep s.toList []).map (fun cs => String.mk cs)

/-- Python `str(bool)`: `True` / `False`, as interpolated by an f-string. -/
def pyBool (b : Bool) : String :=
  if b then "True" else "False"

/-- Helper for number parsing: the value of a list of decimal digits,`none`
as soon as a non-digit appears. -/
def digitsToNat : List Char → Nat → Option Nat
  | [], acc => some acc
  | c :: cs, acc =>
    if c.isDigit then digitsToNat cs (acc * 10 + (c.toNat - 48)) else none

/-- The value of a non-empty list of decimal digits. -/
def decNatList (cs : List Char) : Option Nat :=
  match cs with
  | [] => none
  | _ => digitsToNat cs 0

/-- The value of a non-empty string of decimal digits. -/
def decNat (s : String) : Option Nat :=
  decNatList s.toList

/-- Modelled: Python `int(str)` on the decimal integer grammar the protocol
uses (optional minus sign followed by digits). -/
def pyInt (s : String) : Option Int :=
  match s.toList with
  | '-' :: cs => (decNatList cs).map (fun n => -(n : Int))
  | cs => (decNatList cs).map (fun n => (n : Int))

/-- Magnitude part of `pyFloat`: `digits` or `digits.digits`, with the exact
rational value `whole.frac = (whole * 10 ^ k + frac) / 10 ^ k`. -/
def pyFloatMag (s : String) : Option ℚ :=
  match pySplit '.' s with
  | [w] => (decNat w).map (fun n => mkRat n 1)
  | [w, f] =>
    match decNat w, decNat f with
    | some a, some b =>
      some (mkRat (a * 10 ^ f.length + b) (10 ^ f.length))
    | _, _ => none
  | _ => none

/-- Modelled: Python `float(str)` on the plain decimal grammar the protocol
uses (optional minus sign, digits, optional fractional part), with the exact
rational value of the decimal literal. -/
def pyFloat (s : String) : Option ℚ :=
  match s.toList with
  | '-' :: cs => (pyFloatMag (String.mk cs)).map (fun q => -q)
  | _ => pyFloatMag s

/-- Helper for `specWhitespaceFields`: tokens separated by runs of
whitespace, empties dropped, accumulating the current token reversed. -/
def wsTokens : List Char → List Char → List String
  | [], acc => if acc.isEmpty then [] else [String.mk acc.reverse]
  | c :: cs, acc =>
    if c.isWhitespace then
      if acc.isEmpty then wsTokens cs []
      else String.mk acc.reverse :: wsTokens cs []
    else wsTokens cs (c :: acc)

/-- Taken from the spec's words, for comparison with the source's decoder:
"split each record on whitespace" — the whitespace-separated fields of a
record (Python `str.split()` with no argument). -/
def specWhitespaceFields (s : String) : List String :=
  wsTokens s.toList []

/-- Modelled from the spec: the closed enumeration of step processing
states; the spec names the members `Processing` and `Done`. -/
inductive VirtualCarrierStepProcessingState where
  | Processing
  | Done
deriving DecidableEq, Repr

/-- Enumeration lookup by exact name, `VirtualCarrierStepProcessingState[s]`:
`none` models the `KeyError` Python raises for an unknown member name. -/
def VirtualCarrierStepProcessingState.fromName :
    String → Option VirtualCarrierStepProcessingState
  | "Processing" => some .Processing
  | "Done" => some .Done
  | _ => none

/-- Modelled from the spec: the closed enumeration of loader stations; the
spec's examples name the members `Station1`, `Station2`, `Station3`. -/
inductive LoaderStation where
  | Station1
  | Station2
  | Station3
deriving DecidableEq, Repr

/-- Enumeration lookup by exact name, `LoaderStation[s]`: `none` models the
`KeyError` Python raises for an unknown member name. -/
def LoaderStation.fromName : String → Option LoaderStation
  | "Station1" => some .Station1
  | "Station2" => some .Station2
  | "Station3" => some .Station3
  | _ => none

/-- Modelled from the spec: the carrier initialization mode, "serialized via
an abbreviation function"; only the default member `Start` is specified. -/
inductive VirtualCarrierInitFlags where
  | Start
deriving DecidableEq, Repr

/-- Modelled from the spec: the abbreviation function used to serialize a
`VirtualCarrierInitFlags` value into the start-initialize command. -/
def VirtualCarrierInitFlags.toSentioAbbr : VirtualCarrierInitFlags → String
  | .Start => "Start"

/-- One decoded processing step, in the source's tuple shape:
`(state, id, station, slot, temperature, probecardIndex)`.  The temperature
is the exact rational value of its decimal literal. -/
abbrev ProcessingStep :=
  VirtualCarrierStepProcessingState × String × LoaderStation × Int × ℚ × Int

set_option maxHeartbeats 1000000 in
instance : DecidableEq ProcessingStep := inferInstance

set_option maxHeartbeats 1000000 in
instance : DecidableEq (List ProcessingStep) := inferInstance

/-- Equality of modelled exception-or-value outcomes is decidable. -/
instance {ε α : Type} [DecidableEq ε] [DecidableEq α] :
    DecidableEq (Except ε α) := fun x y =>
  match x, y with
  | .error a, .error b =>
    if h : a = b then .isTrue (by rw [h]) else .isFalse (by simp [h])
  | .error _, .ok _ => .isFalse (by simp)
  | .ok _, .error _ => .isFalse (by simp)
  | .ok a, .ok b =>
    if h : a = b then .isTrue (by rw [h]) else .isFalse (by simp [h])

/-- Decode the columns of one step record, in the source's order of
evaluation:

    state = VirtualCarrierStepProcessingState[col[0]]
    id = col[1]
    station = LoaderStation[col[2]]
    slot = int(col[3])
    temp = float(col[4])
    probecard_idx = int(col[5])

Each failed list access is an `indexError`, each failed enumeration lookup an
`enumLookup`, each failed conversion a `valueError`, raised in this order. -/
def parseCols (col : List String) : Except PErr ProcessingStep :=
  match col.get? 0 with
  | none => .error (.indexError 0)
  | some c0 =>
    match VirtualCarrierStepProcessingState.fromName c0 with
    | none => .error (.enumLookup c0)
    | some state =>
      match col.get? 1 with
      | none => .error (.indexError 1)
      | some id =>
        match col.get? 2 with
        | none => .error (.indexError 2)
        | some c2 =>
          match LoaderStation.fromName c2 with
          | none => .error (.enumLookup c2)
          | some station =>
            match col.get? 3 with
            | none => .error (.indexError 3)
            | some c3 =>
              match pyInt c3 with
              | none => .error (.valueError c3)
              | some slot =>
                match col.get? 4 with
                | none => .error (.indexError 4)
                | some c4 =>
                  match pyFloat c4 with
                  | none => .error (.valueError c4)
                  | some temp =>
                    match col.get? 5 with
                    | none => .error (.indexError 5)
                    | some c5 =>
                      match pyInt c5 with
                      | none => .error (.valueError c5)
                      | some pc => .ok (state, id, station, slot, temp, pc)

/-- Decode one step record of the `initialize` payload: the record is split
on the space character (`it.split(' ')` in the source) and its columns are
decoded by `parseCols`. -/
def parseStep (record : String) : Except PErr ProcessingStep :=
  parseCols (pySplit ' ' record)

/-- The record loop of `initialize`: decode every record in payload order,
aborting with the first exception. -/
def parseStepsE : List String → Except PErr (List ProcessingStep)
  | [] => .ok []
  | r :: rs =>
    match parseStep r with
    | .error e => .error e
    | .ok s =>
      match parseStepsE rs with
      | .error e => .error e
      | .ok ss => .ok (s :: ss)

/-- The explicit wait command line sent by `next_step`, `load_first` and
`load_next`: the f-string `f"wait_complete {resp.cmd_id()}, {timeout}"`. -/
def wait_complete_line (cmd_id : Nat) (timeout : Int) : String :=
  "wait_complete " ++ toString cmd_id ++ ", " ++ toString timeout

namespace LoaderVirtualCarrierCommandGroup

/-- Method `list`: sends `loader:vc:list`, reads and validates one reply, and
returns its payload split on `,`; any exception raised inside the `try` block
is swallowed and replaced by the empty list. -/
def list (env : Env) (inp : List String) : Run (List String) :=
  match inp with
  | [] => ⟨.ok [], [.send "loader:vc:list"], []⟩
  | l :: rest =>
    match env.check_resp l with
    | .error _ => ⟨.ok [], [.send "loader:vc:list", .readLine l], rest⟩
    | .ok resp =>
      ⟨.ok (pySplit ',' resp.message), [.send "loader:vc:list", .readLine l],
        rest⟩

/-- Method `select`: sends `loader:vc:select <vc_name>`, reads one reply and
returns the result of validating it, unchanged. -/
def select (env : Env) (vc_name : String) (inp : List String) : Run Response :=
  match inp with
  | [] => ⟨.error .readFailed, [.send ("loader:vc:select " ++ vc_name)], []⟩
  | l :: rest =>
    ⟨env.check_resp l,
      [.send ("loader:vc:select " ++ vc_name), .readLine l], rest⟩

/-- Method `start_load_first`: sends
`loader:vc:start_load_first <cleanup>` (the flag rendered as Python renders a
bool), reads one reply and returns the validated Response. -/
def start_load_first (env : Env) (cleanup : Bool) (inp : List String) :
    Run Response :=
  match inp with
  | [] =>
    ⟨.error .readFailed,
      [.send ("loader:vc:start_load_first " ++ pyBool cleanup)], []⟩
  | l :: rest =>
    match env.check_resp l with
    | .error e =>
      ⟨.error e,
        [.send ("loader:vc:start_load_first " ++ pyBool cleanup),
          .readLine l], rest⟩
    | .ok resp =>
      ⟨.ok resp,
        [.send ("loader:vc:start_load_first " ++ pyBool cleanup),
          .readLine l], rest⟩

/-- Method `initialize` (named `initializeVC` here): sends
`loader:vc:start_initialize <name>, <modeAbbrev>`, reads and validates one
reply, blocks via the parent object's completion-wait on the reply's
correlation id — the `timeout` parameter is accepted but never used, exactly
as in the source — and finally decodes the reply payload: split on `,` into
records, each record decoded by `parseStep`. -/
def initializeVC (env : Env) (carrier_name : String)
    (mode : VirtualCarrierInitFlags) (timeout : Int) (inp : List String) :
    Run (List ProcessingStep) :=
  match inp with
  | [] =>
    ⟨.error .readFailed,
      [.send ("loader:vc:start_initialize " ++ carrier_name ++ ", " ++
        mode.toSentioAbbr)], []⟩
  | l :: rest =>
    match env.check_resp l with
    | .error e =>
      ⟨.error e,
        [.send ("loader:vc:start_initialize " ++ carrier_name ++ ", " ++
          mode.toSentioAbbr), .readLine l], rest⟩
    | .ok resp =>
      match env.wait_complete resp.cmd_id with
      | .error e =>
        ⟨.error e,
          [.send ("loader:vc:start_initialize " ++ carrier_name ++ ", " ++
            mode.toSentioAbbr), .readLine l, .proberWait resp.cmd_id], rest⟩
      | .ok _ =>
        match parseStepsE (pySplit ',' resp.message) with
        | .error e =>
          ⟨.error e,
            [.send ("loader:vc:start_initialize " ++ carrier_name ++ ", " ++
              mode.toSentioAbbr), .readLine l, .proberWait resp.cmd_id], rest⟩
        | .ok steps =>
          ⟨.ok steps,
            [.send ("loader:vc:start_initialize " ++ carrier_name ++ ", " ++
              mode.toSentioAbbr), .readLine l, .proberWait resp.cmd_id], rest⟩

/-- Method `next_step`: sends `loader:vc:start_next_step`, reads and
validates one reply, sends the explicit line
`wait_complete <cmd_id>, <timeout>`, reads and validates the wait reply
(whose payload is discarded), then decodes the first reply's payload — note
that the source splits it on `,` (not on the space character) and feeds the
pieces directly to the column decoder. -/
def next_step (env : Env) (timeout : Int) (inp : List String) :
    Run ProcessingStep :=
  match inp with
  | [] => ⟨.error .readFailed, [.send "loader:vc:start_next_step"], []⟩
  | l :: rest =>
    match env.check_resp l with
    | .error e =>
      ⟨.error e, [.send "loader:vc:start_next_step", .readLine l], rest⟩
    | .ok resp =>
      match rest with
      | [] =>
        ⟨.error .readFailed,
          [.send "loader:vc:start_next_step", .readLine l,
            .send (wait_complete_line resp.cmd_id timeout)], []⟩
      | l2 :: rest2 =>
        match env.check_resp l2 with
        | .error e =>
          ⟨.error e,
            [.send "loader:vc:start_next_step", .readLine l,
              .send (wait_complete_line resp.cmd_id timeout), .readLine l2],
            rest2⟩
        | .ok _ =>
          match parseCols (pySplit ',' resp.message) with
          | .error e =>
            ⟨.error e,
              [.send "loader:vc:start_next_step", .readLine l,
                .send (wait_complete_line resp.cmd_id timeout),
                .readLine l2], rest2⟩
          | .ok step =>
            ⟨.ok step,
              [.send "loader:vc:start_next_step", .readLine l,
                .send (wait_complete_line resp.cmd_id timeout),
                .readLine l2], rest2⟩

/-- Method `load_first`: calls `start_load_first`, then sends the explicit
line `wait_complete <cmd_id>, <timeout>` and reads and validates the wait
reply; returns nothing. -/
def load_first (env : Env) (cleanup : Bool) (timeout : Int)
    (inp : List String) : Run Unit :=
  match start_load_first env cleanup inp with
  | ⟨.error e, tr, rest⟩ => ⟨.error e, tr, rest⟩
  | ⟨.ok resp, tr, rest⟩ =>
    match rest with
    | [] =>
      ⟨.error .readFailed,
        tr ++ [.send (wait_complete_line resp.cmd_id timeout)], []⟩
    | l2 :: rest2 =>
      match env.check_resp l2 with
      | .error e =>
        ⟨.error e,
          tr ++ [.send (wait_complete_line resp.cmd_id timeout),
            .readLine l2], rest2⟩
      | .ok _ =>
        ⟨.ok (),
          tr ++ [.send (wait_complete_line resp.cmd_id timeout),
            .readLine l2], rest2⟩

/-- Method `start_load_next`: sends `loader:vc:start_load_next`, reads one
reply and returns the validated Response. -/
def start_load_next (env : Env) (inp : List String) : Run Response :=
  match inp with
  | [] => ⟨.error .readFailed, [.send "loader:vc:start_load_next"], []⟩
  | l :: rest =>
    match env.check_resp l with
    | .error e =>
      ⟨.error e, [.send "loader:vc:start_load_next", .readLine l], rest⟩
    | .ok resp =>
      ⟨.ok resp, [.send "loader:vc:start_load_next", .readLine l], rest⟩

/-- Method `load_next`: calls `start_load_next`, then sends the explicit
line `wait_complete <cmd_id>, <timeout>` and reads and validates the wait
reply; returns nothing. -/
def load_next (env : Env) (timeout : Int) (inp : List String) : Run Unit :=
  match start_load_next env inp with
  | ⟨.error e, tr, rest⟩ => ⟨.error e, tr, rest⟩
  | ⟨.ok resp, tr, rest⟩ =>
    match rest with
    | [] =>
      ⟨.error .readFailed,
        tr ++ [.send (wait_complete_line resp.cmd_id timeout)], []⟩
    | l2 :: rest2 =>
      match env.check_resp l2 with
      | .error e =>
        ⟨.error e,
          tr ++ [.send (wait_complete_line resp.cmd_id timeout),
            .readLine l2], rest2⟩
      | .ok _ =>
        ⟨.ok (),
          tr ++ [.send (wait_complete_line resp.cmd_id timeout),
            .readLine l2], rest2⟩

end LoaderVirtualCarrierCommandGroup

/-- An environment whose response validation always succeeds with the given
correlation id and payload, and whose parent completion-wait succeeds. -/
def constEnv (cmd_id : Nat) (msg : String) : Env :=
  ⟨fun _ => .ok ⟨0, cmd_id, msg⟩, fun _ => .ok ()⟩

/-- Whether an event is a command line sent over the Transport. -/
def isSendEvent : Event → Bool
  | .send _ => true
  | _ => false

/-- Whether an event is a reply line read from the Transport. -/
def isReadEvent : Event → Bool
  | .readLine _ => true
  | _ => false

/-- Whether an event is an invocation of the parent completion-wait (which
is not Transport traffic of this module). -/
def isProberWaitEvent : Event → Bool
  | .proberWait _ => true
  | _ => false

/-- The Transport traffic of a trace: its send and read events. -/
def transportEvents (tr : List Event) : List Event :=
  tr.filter (fun e => isSendEvent e || isReadEvent e)

/-- Strict request/response pairing of a Transport trace: sends and reads
alternate starting with a send, each send followed by exactly one read
before the next send (a trailing send whose read never happened — because
the operation aborted — is allowed). -/
def pairedB : List Event → Bool
  | [] => true
  | [Event.send _] => true
  | Event.send _ :: Event.readLine _ :: rest => pairedB rest
  | _ => false


open LoaderVirtualCarrierCommandGroup

theorem splitCharsAux_ne_nil (sep : Char) (cs : List Char) :
    ∀ acc, splitCharsAux sep cs acc ≠ [] := by
  induction cs with
  | nil => intro acc; simp [splitCharsAux]
  | cons c cs ih =>
    intro acc
    by_cases h : c = sep
    · simp [splitCharsAux, h]
    · simpa [splitCharsAux, h] using ih (c :: acc)

theorem pySplit_ne_nil (sep : Char) (s : String) : pySplit sep s ≠ [] := by
  unfold pySplit
  simp only [ne_eq, List.map_eq_nil_iff]
  exact splitCharsAux_ne_nil sep s.toList []

/-- C3: for every reply: when the exchange succeeds, `list` returns the
payload split on `,` — in particular payload "A,B,C" yields ["A","B","C"] —
and whenever the read of the reply or the response validation raises an
error, of any cause, `list` catches it and returns the empty sequence.
(The Transport's send is modelled as infallible; a send failure would be
caught by the same `try` block.) -/
theorem list_splits_payload_and_swallows_errors :
    ((list (constEnv 1 "A,B,C") ["r"]).result = .ok ["A", "B", "C"])
    ∧ (∀ env l rest resp, env.check_resp l = .ok resp →
        (list env (l :: rest)).result = .ok (pySplit ',' resp.message))
    ∧ (∀ env, (list env []).result = .ok [])
    ∧ (∀ env l rest e, env.check_resp l = .error e →
        (list env (l :: rest)).result = .ok []) := by
  refine ⟨by decide, ?_, ?_, ?_⟩
  · intro env l rest resp h
    simp [list, h]
  · intro env
    simp [list]
  · intro env l rest e h
    simp [list, h]

/-- C10: a successful `list` exchange always returns at least one element:
splitting a payload on `,` never yields an empty list, and the empty payload
yields the one-element sequence [""], so an empty result can only come from
the swallowed-error branch. -/
theorem list_success_returns_nonempty :
    ((list (constEnv 1 "") ["r"]).result = .ok [""])
    ∧ (∀ env l rest resp, env.check_resp l = .ok resp →
        ∃ xs, (list env (l :: rest)).result = .ok xs ∧ xs ≠ [] ∧
          1 ≤ xs.length) := by
  refine ⟨by decide, ?_⟩
  intro env l rest resp h
  refine ⟨pySplit ',' resp.message, by simp [list, h], pySplit_ne_nil _ _, ?_⟩
  exact List.length_pos.mpr (pySplit_ne_nil _ _)

/-- C8: for every carrier name, `select` sends exactly the command line
"loader:vc:select " followed by the name — its only send event — and
returns the result of response validation unchanged. -/
theorem select_sends_exact_command_and_returns_response_unchanged :
    (∀ env n inp, (select env n inp).trace.head? =
      some (.send ("loader:vc:select " ++ n)))
    ∧ (∀ env n inp s, Event.send s ∈ (select env n inp).trace →
        s = "loader:vc:select " ++ n)
    ∧ (∀ env n l rest, (select env n (l :: rest)).result = env.check_resp l) := by
  refine ⟨?_, ?_, ?_⟩
  · intro env n inp
    cases inp with
    | nil => simp [select]
    | cons l rest => simp [select]
  · intro env n inp s hmem
    cases inp with
    | nil => simpa [select] using hmem
    | cons l rest => simpa [select] using hmem
  · intro env n l rest
    simp [select]

/-- C6: `load_first(cleanup=True, timeout=30)` first sends the start command
carrying the True cleanup flag, then sends the wait command carrying timeout
30 on the correlation id of the start reply; if the wait's reply validation
fails, the error propagates and the method produces no return value. -/
theorem load_first_true_30_protocol :
    (∀ env inp, (load_first env true 30 inp).trace.head? =
      some (.send "loader:vc:start_load_first True"))
    ∧ (∀ env l rest resp, env.check_resp l = .ok resp →
        (load_first env true 30 (l :: rest)).trace.take 3 =
          [.send "loader:vc:start_load_first True", .readLine l,
            .send (wait_complete_line resp.cmd_id 30)])
    ∧ (wait_complete_line 5 30 = "wait_complete 5, 30")
    ∧ (∀ env l l2 rest2 resp e, env.check_resp l = .ok resp →
        env.check_resp l2 = .error e →
        (load_first env true 30 (l :: l2 :: rest2)).result = .error e) := by
  refine ⟨?_, ?_, by decide, ?_⟩
  · intro env inp
    cases inp with
    | nil => simp [load_first, start_load_first, pyBool]
    | cons l rest =>
      cases h : env.check_resp l with
      | error e => simp [load_first, start_load_first, pyBool, h]
      | ok resp =>
        cases rest with
        | nil => simp [load_first, start_load_first, pyBool, h]
        | cons l2 rest2 =>
          cases h2 : env.check_resp l2 with
          | error e => simp [load_first, start_load_first, pyBool, h, h2]
          | ok r2 => simp [load_first, start_load_first, pyBool, h, h2]
  · intro env l rest resp h
    cases rest with
    | nil => simp [load_first, start_load_first, pyBool, h]
    | cons l2 rest2 =>
      cases h2 : env.check_resp l2 with
      | error e => simp [load_first, start_load_first, pyBool, h, h2]
      | ok r2 => simp [load_first, start_load_first, pyBool, h, h2]
  · intro env l l2 rest2 resp e h h2
    simp [load_first, start_load_first, h, h2]

/-- C4: `initialize` on the documented two-record payload returns exactly
the two ProcessingStep tuples, in payload order — the temperatures decode to
the exact values 25.5 and 26.0 — and in general the decoded sequence
preserves the order of the records: it has one step per record, the i-th
step decoded from the i-th record. -/
theorem initialize_decodes_in_payload_order :
    ((initializeVC (constEnv 5
        "Processing 1 Station1 2 25.5 0,Processing 2 Station2 3 26.0 1")
        "CarrierX" .Start 90 ["r"]).result =
      .ok [(.Processing, "1", .Station1, 2, mkRat 51 2, 0),
        (.Processing, "2", .Station2, 3, mkRat 26 1, 1)])
    ∧ (mkRat 51 2 = (25.5 : ℚ) ∧ mkRat 26 1 = (26.0 : ℚ))
    ∧ (∀ rs ss, parseStepsE rs = .ok ss →
        ss.length = rs.length ∧
        ∀ i (h1 : i < rs.length) (h2 : i < ss.length),
          parseStep (rs.get ⟨i, h1⟩) = .ok (ss.get ⟨i, h2⟩)) := by
  refine ⟨by decide, ⟨by norm_num [Rat.mkRat_eq_div], by norm_num [Rat.mkRat_eq_div]⟩, ?_⟩
  intro rs
  induction rs with
  | nil =>
    intro ss h
    simp only [parseStepsE] at h
    cases h
    exact ⟨rfl, fun i h1 _ => absurd h1 (Nat.not_lt_zero i)⟩
  | cons r rs ih =>
    intro ss h
    simp only [parseStepsE] at h
    cases hr : parseStep r with
    | error e => rw [hr] at h; cases h
    | ok s =>
      rw [hr] at h
      cases hrs : parseStepsE rs with
      | error e => rw [hrs] at h; cases h
      | ok ss0 =>
        rw [hrs] at h
        cases h
        obtain ⟨hlen, hidx⟩ := ih ss0 hrs
        refine ⟨by simp [hlen], ?_⟩
        intro i h1 h2
        cases i with
        | zero => simpa using hr
        | succ j =>
          simp only [List.get_cons_succ]
          exact hidx j (Nat.lt_of_succ_lt_succ h1) (Nat.lt_of_succ_lt_succ h2)

/-- C1 counterexample: `initialize` produces the identical run — result,
trace and remaining input — for timeouts 90 and 7, and its completion-wait
invocation carries only the correlation id, so the caller's timeout is not
passed to the completion-wait primitive it invokes. -/
theorem initialize_ignores_timeout_counterexample :
    initializeVC (constEnv 5 "Processing 1 Station1 2 25.5 0") "CarrierX"
        .Start 90 ["r"] =
      initializeVC (constEnv 5 "Processing 1 Station1 2 25.5 0") "CarrierX"
        .Start 7 ["r"]
    ∧ (90 : Int) ≠ 7
    ∧ (initializeVC (constEnv 5 "Processing 1 Station1 2 25.5 0") "CarrierX"
        .Start 90 ["r"]).trace =
      [.send "loader:vc:start_initialize CarrierX, Start", .readLine "r",
        .proberWait 5] := by
  exact ⟨rfl, by decide, by decide⟩

/-- C1 (amended): `load_first`, `load_next` and `next_step` pass the
caller's timeout unchanged into the explicit `wait_complete` command line —
every send of such an operation is either its start command or a wait line
carrying exactly that timeout, and once the start reply validates the wait
line for its correlation id is actually sent — while `initialize` ignores
its timeout argument entirely: its run is identical for any two timeouts.
No operation does timeout tracking of its own. -/
theorem timeout_forwarding :
    (∀ env n m t u inp,
      initializeVC env n m t inp = initializeVC env n m u inp)
    ∧ (∀ env t inp s, Event.send s ∈ (next_step env t inp).trace →
        s = "loader:vc:start_next_step" ∨ ∃ k, s = wait_complete_line k t)
    ∧ (∀ env c t inp s, Event.send s ∈ (load_first env c t inp).trace →
        s = "loader:vc:start_load_first " ++ pyBool c ∨
          ∃ k, s = wait_complete_line k t)
    ∧ (∀ env t inp s, Event.send s ∈ (load_next env t inp).trace →
        s = "loader:vc:start_load_next" ∨ ∃ k, s = wait_complete_line k t)
    ∧ (∀ env t l rest resp, env.check_resp l = .ok resp →
        Event.send (wait_complete_line resp.cmd_id t) ∈
          (next_step env t (l :: rest)).trace)
    ∧ (∀ env c t l rest resp, env.check_resp l = .ok resp →
        Event.send (wait_complete_line resp.cmd_id t) ∈
          (load_first env c t (l :: rest)).trace)
    ∧ (∀ env t l rest resp, env.check_resp l = .ok resp →
        Event.send (wait_complete_line resp.cmd_id t) ∈
          (load_next env t (l :: rest)).trace) := by
  refine ⟨fun env n m t u inp => rfl, ?_, ?_, ?_, ?_, ?_, ?_⟩
  · intro env t inp s hmem
    cases inp with
    | nil => simp [next_step] at hmem; simp [hmem]
    | cons l rest =>
      cases h : env.check_resp l with
      | error e => simp [next_step, h] at hmem; simp [hmem]
      | ok resp =>
        cases rest with
        | nil =>
          simp [next_step, h] at hmem
          rcases hmem with h1 | h1
          · exact Or.inl h1
          · exact Or.inr ⟨resp.cmd_id, h1⟩
        | cons l2 rest2 =>
          cases h2 : env.check_resp l2 with
          | error e =>
            simp [next_step, h, h2] at hmem
            rcases hmem with h1 | h1
            · exact Or.inl h1
            · exact Or.inr ⟨resp.cmd_id, h1⟩
          | ok r2 =>
            cases hp : parseCols (pySplit ',' resp.message) with
            | error e =>
              simp [next_step, h, h2, hp] at hmem
              rcases hmem with h1 | h1
              · exact Or.inl h1
              · exact Or.inr ⟨resp.cmd_id, h1⟩
            | ok step =>
              simp [next_step, h, h2, hp] at hmem
              rcases hmem with h1 | h1
              · exact Or.inl h1
              · exact Or.inr ⟨resp.cmd_id, h1⟩
  · intro env c t inp s hmem
    cases inp with
    | nil => simp [load_first, start_load_first] at hmem; simp [hmem]
    | cons l rest =>
      cases h : env.check_resp l with
      | error e =>
        simp [load_first, start_load_first, h] at hmem; simp [hmem]
      | ok resp =>
        cases rest with
        | nil =>
          simp [load_first, start_load_first, h] at hmem
          rcases hmem with h1 | h1
          · exact Or.inl h1
          · exact Or.inr ⟨resp.cmd_id, h1⟩
        | cons l2 rest2 =>
          cases h2 : env.check_resp l2 with
          | error e =>
            simp [load_first, start_load_first, h, h2] at hmem
            rcases hmem with h1 | h1
            · exact Or.inl h1
            · exact Or.inr ⟨resp.cmd_id, h1⟩
          | ok r2 =>
            simp [load_first, start_load_first, h, h2] at hmem
            rcases hmem with h1 | h1
            · exact Or.inl h1
            · exact Or.inr ⟨resp.cmd_id, h1⟩
  · intro env t inp s hmem
    cases inp with
    | nil => simp [load_next, start_load_next] at hmem; simp [hmem]
    | cons l rest =>
      cases h : env.check_resp l with
      | error e =>
        simp [load_next, start_load_next, h] at hmem; simp [hmem]
      | ok resp =>
        cases rest with
        | nil =>
          simp [load_next, start_load_next, h] at hmem
          rcases hmem with h1 | h1
          · exact Or.inl h1
          · exact Or.inr ⟨resp.cmd_id, h1⟩
        | cons l2 rest2 =>
          cases h2 : env.check_resp l2 with
          | error e =>
            simp [load_next, start_load_next, h, h2] at hmem
            rcases hmem with h1 | h1
            · exact Or.inl h1
            · exact Or.inr ⟨resp.cmd_id, h1⟩
          | ok r2 =>
            simp [load_next, start_load_next, h, h2] at hmem
            rcases hmem with h1 | h1
            · exact Or.inl h1
            · exact Or.inr ⟨resp.cmd_id, h1⟩
  · intro env t l rest resp h
    cases rest with
    | nil => simp [next_step, h]
    | cons l2 rest2 =>
      cases h2 : env.check_resp l2 with
      | error e => simp [next_step, h, h2]
      | ok r2 =>
        cases hp : parseCols (pySplit ',' resp.message) with
        | error e => simp [next_step, h, h2, hp]
        | ok step => simp [next_step, h, h2, hp]
  · intro env c t l rest resp h
    cases rest with
    | nil => simp [load_first, start_load_first, h]
    | cons l2 rest2 =>
      cases h2 : env.check_resp l2 with
      | error e => simp [load_first, start_load_first, h, h2]
      | ok r2 => simp [load_first, start_load_first, h, h2]
  · intro env t l rest resp h
    cases rest with
    | nil => simp [load_next, start_load_next, h]
    | cons l2 rest2 =>
      cases h2 : env.check_resp l2 with
      | error e => simp [load_next, start_load_next, h, h2]
      | ok r2 => simp [load_next, start_load_next, h, h2]

/-- C2 counterexample: `load_first` does send a raw `wait_complete` command
line over the Transport — here `wait_complete 5, 30` — and never invokes the
parent object's generic completion-wait. -/
theorem load_first_sends_raw_wait_counterexample :
    (load_first (constEnv 5 "M") true 30 ["r1", "r2"]).trace =
      [.send "loader:vc:start_load_first True", .readLine "r1",
        .send "wait_complete 5, 30", .readLine "r2"]
    ∧ Event.send "wait_complete 5, 30" ∈
        (load_first (constEnv 5 "M") true 30 ["r1", "r2"]).trace
    ∧ (load_first (constEnv 5 "M") true 30 ["r1", "r2"]).trace.filter
        isProberWaitEvent = [] := by
  exact ⟨by decide, by decide, by decide⟩

/-- C2 (amended): only `initialize` blocks via the Session Controller's
generic wait-complete call on the parent object, keyed by the correlation id
of the start reply, and sends no `wait_complete` line of its own (its only
send is the start command); `load_first`, `load_next` and `next_step` never
invoke the parent wait and each send their own explicit `wait_complete`
command line over the Transport once the start reply validates. -/
theorem completion_wait_paths :
    (∀ env n m t l rest resp, env.check_resp l = .ok resp →
      Event.proberWait resp.cmd_id ∈
        (initializeVC env n m t (l :: rest)).trace)
    ∧ (∀ env n m t inp s,
        Event.send s ∈ (initializeVC env n m t inp).trace →
        s = "loader:vc:start_initialize " ++ n ++ ", " ++ m.toSentioAbbr)
    ∧ (∀ env c t inp k, Event.proberWait k ∉ (load_first env c t inp).trace)
    ∧ (∀ env t inp k, Event.proberWait k ∉ (load_next env t inp).trace)
    ∧ (∀ env t inp k, Event.proberWait k ∉ (next_step env t inp).trace)
    ∧ (∀ env c t l rest resp, env.check_resp l = .ok resp →
        Event.send (wait_complete_line resp.cmd_id t) ∈
          (load_first env c t (l :: rest)).trace)
    ∧ (∀ env t l rest resp, env.check_resp l = .ok resp →
        Event.send (wait_complete_line resp.cmd_id t) ∈
          (load_next env t (l :: rest)).trace)
    ∧ (∀ env t l rest resp, env.check_resp l = .ok resp →
        Event.send (wait_complete_line resp.cmd_id t) ∈
          (next_step env t (l :: rest)).trace) := by
  refine ⟨?_, ?_, ?_, ?_, ?_, ?_, ?_, ?_⟩
  · intro env n m t l rest resp h
    cases hw : env.wait_complete resp.cmd_id with
    | error e => simp [initializeVC, h, hw]
    | ok u =>
      cases hp : parseStepsE (pySplit ',' resp.message) with
      | error e => simp [initializeVC, h, hw, hp]
      | ok steps => simp [initializeVC, h, hw, hp]
  · intro env n m t inp s hmem
    cases inp with
    | nil => simpa [initializeVC] using hmem
    | cons l rest =>
      cases h : env.check_resp l with
      | error e => simpa [initializeVC, h] using hmem
      | ok resp =>
        cases hw : env.wait_complete resp.cmd_id with
        | error e => simpa [initializeVC, h, hw] using hmem
        | ok u =>
          cases hp : parseStepsE (pySplit ',' resp.message) with
          | error e => simpa [initializeVC, h, hw, hp] using hmem
          | ok steps => simpa [initializeVC, h, hw, hp] using hmem
  · intro env c t inp k
    cases inp with
    | nil => simp [load_first, start_load_first]
    | cons l rest =>
      cases h : env.check_resp l with
      | error e => simp [load_first, start_load_first, h]
      | ok resp =>
        cases rest with
        | nil => simp [load_first, start_load_first, h]
        | cons l2 rest2 =>
          cases h2 : env.check_resp l2 with
          | error e => simp [load_first, start_load_first, h, h2]
          | ok r2 => simp [load_first, start_load_first, h, h2]
  · intro env t inp k
    cases inp with
    | nil => simp [load_next, start_load_next]
    | cons l rest =>
      cases h : env.check_resp l with
      | error e => simp [load_next, start_load_next, h]
      | ok resp =>
        cases rest with
        | nil => simp [load_next, start_load_next, h]
        | cons l2 rest2 =>
          cases h2 : env.check_resp l2 with
          | error e => simp [load_next, start_load_next, h, h2]
          | ok r2 => simp [load_next, start_load_next, h, h2]
  · intro env t inp k
    cases inp with
    | nil => simp [next_step]
    | cons l rest =>
      cases h : env.check_resp l with
      | error e => simp [next_step, h]
      | ok resp =>
        cases rest with
        | nil => simp [next_step, h]
        | cons l2 rest2 =>
          cases h2 : env.check_resp l2 with
          | error e => simp [next_step, h, h2]
          | ok r2 =>
            cases hp : parseCols (pySplit ',' resp.message) with
            | error e => simp [next_step, h, h2, hp]
            | ok step => simp [next_step, h, h2, hp]
  · intro env c t l rest resp h
    cases rest with
    | nil => simp [load_first, start_load_first, h]
    | cons l2 rest2 =>
      cases h2 : env.check_resp l2 with
      | error e => simp [load_first, start_load_first, h, h2]
      | ok r2 => simp [load_first, start_load_first, h, h2]
  · intro env t l rest resp h
    cases rest with
    | nil => simp [load_next, start_load_next, h]
    | cons l2 rest2 =>
      cases h2 : env.check_resp l2 with
      | error e => simp [load_next, start_load_next, h, h2]
      | ok r2 => simp [load_next, start_load_next, h, h2]
  · intro env t l rest resp h
    cases rest with
    | nil => simp [next_step, h]
    | cons l2 rest2 =>
      cases h2 : env.check_resp l2 with
      | error e => simp [next_step, h, h2]
      | ok r2 =>
        cases hp : parseCols (pySplit ',' resp.message) with
        | error e => simp [next_step, h, h2, hp]
        | ok step => simp [next_step, h, h2, hp]

/-- C9: in every operation's Transport trace, sends and reads strictly
alternate starting with a send: each send is followed by exactly one read
before any further send, so no operation pipelines commands.  (The parent
completion-wait invocation of `initialize` is not Transport traffic of this
module and is filtered out.) -/
theorem transport_strict_request_response_pairing :
    (∀ env inp, pairedB (transportEvents (list env inp).trace) = true)
    ∧ (∀ env n inp, pairedB (transportEvents (select env n inp).trace) = true)
    ∧ (∀ env c inp,
        pairedB (transportEvents (start_load_first env c inp).trace) = true)
    ∧ (∀ env inp,
        pairedB (transportEvents (start_load_next env inp).trace) = true)
    ∧ (∀ env n m t inp,
        pairedB (transportEvents (initializeVC env n m t inp).trace) = true)
    ∧ (∀ env t inp,
        pairedB (transportEvents (next_step env t inp).trace) = true)
    ∧ (∀ env c t inp,
        pairedB (transportEvents (load_first env c t inp).trace) = true)
    ∧ (∀ env t inp,
        pairedB (transportEvents (load_next env t inp).trace) = true) := by
  refine ⟨?_, ?_, ?_, ?_, ?_, ?_, ?_, ?_⟩
  · intro env inp
    cases inp with
    | nil => rfl
    | cons l rest =>
      cases h : env.check_resp l with
      | error e => simp [list, h, transportEvents, pairedB, isSendEvent, isReadEvent]
      | ok resp => simp [list, h, transportEvents, pairedB, isSendEvent, isReadEvent]
  · intro env n inp
    cases inp with
    | nil => rfl
    | cons l rest => rfl
  · intro env c inp
    cases inp with
    | nil => rfl
    | cons l rest =>
      cases h : env.check_resp l with
      | error e =>
        simp [start_load_first, h, transportEvents, pairedB, isSendEvent,
          isReadEvent]
      | ok resp =>
        simp [start_load_first, h, transportEvents, pairedB, isSendEvent,
          isReadEvent]
  · intro env inp
    cases inp with
    | nil => rfl
    | cons l rest =>
      cases h : env.check_resp l with
      | error e =>
        simp [start_load_next, h, transportEvents, pairedB, isSendEvent,
          isReadEvent]
      | ok resp =>
        simp [start_load_next, h, transportEvents, pairedB, isSendEvent,
          isReadEvent]
  · intro env n m t inp
    cases inp with
    | nil => rfl
    | cons l rest =>
      cases h : env.check_resp l with
      | error e =>
        simp [initializeVC, h, transportEvents, pairedB, isSendEvent,
          isReadEvent, isProberWaitEvent]
      | ok resp =>
        cases hw : env.wait_complete resp.cmd_id with
        | error e =>
          simp [initializeVC, h, hw, transportEvents, pairedB, isSendEvent,
            isReadEvent, isProberWaitEvent]
        | ok u =>
          cases hp : parseStepsE (pySplit ',' resp.message) with
          | error e =>
            simp [initializeVC, h, hw, hp, transportEvents, pairedB,
              isSendEvent, isReadEvent, isProberWaitEvent]
          | ok steps =>
            simp [initializeVC, h, hw, hp, transportEvents, pairedB,
              isSendEvent, isReadEvent, isProberWaitEvent]
  · intro env t inp
    cases inp with
    | nil => rfl
    | cons l rest =>
      cases h : env.check_resp l with
      | error e =>
        simp [next_step, h, transportEvents, pairedB, isSendEvent, isReadEvent]
      | ok resp =>
        cases rest with
        | nil =>
          simp [next_step, h, transportEvents, pairedB, isSendEvent,
            isReadEvent]
        | cons l2 rest2 =>
          cases h2 : env.check_resp l2 with
          | error e =>
            simp [next_step, h, h2, transportEvents, pairedB, isSendEvent,
              isReadEvent]
          | ok r2 =>
            cases hp : parseCols (pySplit ',' resp.message) with
            | error e =>
              simp [next_step, h, h2, hp, transportEvents, pairedB,
                isSendEvent, isReadEvent]
            | ok step =>
              simp [next_step, h, h2, hp, transportEvents, pairedB,
                isSendEvent, isReadEvent]
  · intro env c t inp
    cases inp with
    | nil => rfl
    | cons l rest =>
      cases h : env.check_resp l with
      | error e =>
        simp [load_first, start_load_first, h, transportEvents, pairedB,
          isSendEvent, isReadEvent]
      | ok resp =>
        cases rest with
        | nil =>
          simp [load_first, start_load_first, h, transportEvents, pairedB,
            isSendEvent, isReadEvent]
        | cons l2 rest2 =>
          cases h2 : env.check_resp l2 with
          | error e =>
            simp [load_first, start_load_first, h, h2, transportEvents,
              pairedB, isSendEvent, isReadEvent]
          | ok r2 =>
            simp [load_first, start_load_first, h, h2, transportEvents,
              pairedB, isSendEvent, isReadEvent]
  · intro env t inp
    cases inp with
    | nil => rfl
    | cons l rest =>
      cases h : env.check_resp l with
      | error e =>
        simp [load_next, start_load_next, h, transportEvents, pairedB,
          isSendEvent, isReadEvent]
      | ok resp =>
        cases rest with
        | nil =>
          simp [load_next, start_load_next, h, transportEvents, pairedB,
            isSendEvent, isReadEvent]
        | cons l2 rest2 =>
          cases h2 : env.check_resp l2 with
          | error e =>
            simp [load_next, start_load_next, h, h2, transportEvents,
              pairedB, isSendEvent, isReadEvent]
          | ok r2 =>
            simp [load_next, start_load_next, h, h2, transportEvents,
              pairedB, isSendEvent, isReadEvent]

/-- C5: evaluating `next_step` at the documented reply payload
"Done 5 Station3 1 24.0 2": the wait command with the supplied timeout is
sent, but the method does not return the documented tuple — because the
source splits the payload on `,` instead of the space character, it looks up
the whole record string as a processing-state name and raises an
enumeration-lookup error. -/
theorem next_step_fails_on_documented_payload :
    (next_step (constEnv 7 "Done 5 Station3 1 24.0 2") 90 ["r1", "r2"]).result =
      .error (.enumLookup "Done 5 Station3 1 24.0 2")
    ∧ (next_step (constEnv 7 "Done 5 Station3 1 24.0 2") 90 ["r1", "r2"]).trace =
      [.send "loader:vc:start_next_step", .readLine "r1",
        .send "wait_complete 7, 90", .readLine "r2"] := by
  exact ⟨by decide, by decide⟩

/-- C7 counterexample: on the payload "Done 5 Station3 1 24.0 2" — whose
whitespace-split fields are six tokens with recognized state and station
names and well-formed numbers, so by the claim's parsing rule decoding would
succeed — `next_step` instead raises an enumeration-lookup error on the
whole record, because it does not split the record on whitespace. -/
theorem next_step_payload_not_split_on_whitespace_counterexample :
    specWhitespaceFields "Done 5 Station3 1 24.0 2" =
      ["Done", "5", "Station3", "1", "24.0", "2"]
    ∧ VirtualCarrierStepProcessingState.fromName "Done" = some .Done
    ∧ LoaderStation.fromName "Station3" = some .Station3
    ∧ pyInt "1" = some 1
    ∧ pyFloat "24.0" = some (mkRat 24 1)
    ∧ pyInt "2" = some 2
    ∧ (next_step (constEnv 9 "Done 5 Station3 1 24.0 2") 90 ["a", "b"]).result =
        .error (.enumLookup "Done 5 Station3 1 24.0 2") := by
  exact ⟨by decide, by decide, by decide, by decide, by decide, by decide,
    by decide⟩

/-- C7 (amended): `initialize` splits its payload on `,` into records and
each record on the space character, reading the fields in the fixed order
state, id, station, slot, temperature, probecardIndex; `next_step` splits
its payload on `,` and reads those pieces directly as the fields; state and
station map onto enumeration members by exact name match, and an unmapped
state or station token raises an enumeration-lookup error rather than
producing a default. -/
theorem step_payload_parsing :
    (∀ r, parseStep r = parseCols (pySplit ' ' r))
    ∧ (∀ env n m t l rest resp, env.check_resp l = .ok resp →
        env.wait_complete resp.cmd_id = .ok () →
        (initializeVC env n m t (l :: rest)).result =
          parseStepsE (pySplit ',' resp.message))
    ∧ (∀ env t l l2 rest2 resp r2, env.check_resp l = .ok resp →
        env.check_resp l2 = .ok r2 →
        (next_step env t (l :: l2 :: rest2)).result =
          parseCols (pySplit ',' resp.message))
    ∧ (∀ (col : List String) c0, col[0]? = some c0 →
        VirtualCarrierStepProcessingState.fromName c0 = none →
        parseCols col = .error (.enumLookup c0))
    ∧ (∀ (col : List String) c0 st s1 c2, col[0]? = some c0 →
        VirtualCarrierStepProcessingState.fromName c0 = some st →
        col[1]? = some s1 → col[2]? = some c2 →
        LoaderStation.fromName c2 = none →
        parseCols col = .error (.enumLookup c2)) := by
  refine ⟨fun r => rfl, ?_, ?_, ?_, ?_⟩
  · intro env n m t l rest resp h hw
    cases hp : parseStepsE (pySplit ',' resp.message) with
    | error e => simp [initializeVC, h, hw, hp]
    | ok steps => simp [initializeVC, h, hw, hp]
  · intro env t l l2 rest2 resp r2 h h2
    cases hp : parseCols (pySplit ',' resp.message) with
    | error e => simp [next_step, h, h2, hp]
    | ok step => simp [next_step, h, h2, hp]
  · intro col c0 h0 hst
    simp [parseCols, h0, hst]
  · intro col c0 st s1 c2 h0 hst h1 h2 hstn
    simp [parseCols, h0, hst, h1, h2, hstn]
